import Mathlib

/-!
Verification of the graasp-s3-file-item plugin (src/index.ts, src/utils/errors.ts).

The plugin synchronizes "s3File" item records with a backing S3 object store:
it registers a post-delete hook (best-effort object deletion), a pre-copy hook
(copy-object then repoint the in-flight descriptor's key), a POST /s3-upload
route (create record + signed upload URL) and a GET /:id/s3-metadata route
(lazy fill of size/contenttype from a head request).

The embedding is pure: every remote call's outcome (copy, delete, head, sign)
is passed in as an `Except` parameter, and each handler returns the list of
store calls it issued, the log entries it wrote, and its result. Randomness
and the clock (key minting) are modelled by passing the freshly minted key as
a parameter. JavaScript truthiness of the guards is modelled explicitly
(`undefined` ↦ `Option.none`; an empty string is falsy).
-/

namespace GraaspS3FileItem

/-- The `s3File` descriptor stored in the item's `extra` payload
(interface `S3FileItemExtra` in src/index.ts): original filename (`name`),
store key, and lazily filled `size`/`contenttype` (optional fields). -/
structure S3File where
  name : String
  key : String
  size : Option Nat := none
  contenttype : Option String := none
deriving Repr, DecidableEq

/-- The slice of a graasp `Item` the plugin reads: id, type tag, top-level
name, and the optional `extra.s3File` descriptor (`none` models an `extra`
payload lacking the `s3File` field). -/
structure Item where
  id : String
  type : String
  name : String
  s3File : Option S3File
deriving Repr, DecidableEq

/-- An opaque remote-call error (an AWS SDK rejection). -/
structure Err where
  msg : String
deriving Repr, DecidableEq

/-- `ITEM_TYPE` constant in src/index.ts. -/
def ITEM_TYPE : String := "s3File"

/-- `ORIGINAL_FILENAME_TRUNCATE_LIMIT` constant in src/index.ts. -/
def ORIGINAL_FILENAME_TRUNCATE_LIMIT : Nat := 100

/-- JavaScript `filename.substring(0, n)`: the first `n` characters. -/
def jsSubstring (s : String) (n : Nat) : String := ⟨s.data.take n⟩

/-- JavaScript truthiness of an optional string: `undefined` and the empty
string are falsy. -/
def jsTruthy : Option String → Bool
  | none => false
  | some s => s ≠ ""

/-- `S3.HeadObjectRequest` as built in src/index.ts (also used as the
parameter shape of `deleteObject`). -/
structure HeadObjectRequest where
  Bucket : String
  Key : String
deriving Repr, DecidableEq

/-- `S3.CopyObjectRequest` as built by the pre-copy hook in src/index.ts. -/
structure CopyObjectRequest where
  CopySource : String
  Bucket : String
  Key : String
  Metadata : List (String × String)
  MetadataDirective : String
  ContentDisposition : String
  ContentType : Option String
  CacheControl : String
deriving Repr, DecidableEq

/-- The parameters of the `getSignedUrlPromise('putObject', params)` call in
the upload route of src/index.ts. -/
structure SignedUrlParams where
  Bucket : String
  Key : String
  Expires : Nat
  Metadata : List (String × String)
deriving Repr, DecidableEq

/-- One remote call issued against the object store. -/
inductive StoreCall where
  | head (req : HeadObjectRequest)
  | copy (req : CopyObjectRequest)
  | delete (req : HeadObjectRequest)
  | signPutUrl (params : SignedUrlParams)
deriving Repr, DecidableEq

/-- One `log.error(error, message)` entry. -/
structure LogEntry where
  error : Err
  message : String
deriving Repr, DecidableEq

/-- Result of the post-delete hook: the store calls it issued and the log
entries it wrote. The hook returns no value and, by construction of the
source (`.catch` on the promise), can never throw. -/
structure HookResult where
  calls : List StoreCall
  logs : List LogEntry
deriving Repr, DecidableEq

/-- The post-delete hook registered with `setTaskPostHookHandler`
(src/index.ts lines 60-73): for an `s3File`-typed item carrying a descriptor,
issue `deleteObject({Bucket, Key})`; a rejection is caught and logged with
the key, never rethrown. `deleteOutcome` is the outcome of the remote
delete-object call. -/
def deletePostHook (bucket : String) (item : Item)
    (deleteOutcome : Except Err Unit) : HookResult :=
  match item.s3File with
  | none => { calls := [], logs := [] }
  | some s3File =>
    if item.type ≠ ITEM_TYPE then { calls := [], logs := [] }
    else
      let key := s3File.key
      let params : HeadObjectRequest := { Bucket := bucket, Key := key }
      match deleteOutcome with
      | .ok _ => { calls := [.delete params], logs := [] }
      | .error e =>
        { calls := [.delete params],
          logs := [{ error := e,
                     message := "graasp-s3-file-item: failed to delete s3 object \x27"
                       ++ key ++ "\x27" }] }

/-- Result of the pre-copy hook: the store calls it issued, the error it
threw (if any), and the in-flight item after the hook ran (unchanged when the
hook is a no-op or threw before the `s3File.key = newKey` assignment). -/
structure CopyHookResult where
  calls : List StoreCall
  error : Option Err
  item : Item
deriving Repr, DecidableEq

/-- The pre-copy hook registered with `setTaskPreHookHandler`
(src/index.ts lines 81-106): for an `s3File`-typed item with a truthy id and
a descriptor, build the `CopyObjectRequest` and `await s3.copyObject`; on
success assign `s3File.key = newKey`, on rejection the error propagates and
the descriptor is untouched. `newKey` is the freshly minted key
(`randomHexOf4()/randomHexOf4()/randomHexOf4()-Date.now()`), passed in;
`copyOutcome` is the outcome of the remote copy-object call. -/
def copyPreHook (bucket : String) (item : Item) (actorId : String)
    (newKey : String) (copyOutcome : Except Err Unit) : CopyHookResult :=
  match item.s3File with
  | none => { calls := [], error := none, item := item }
  | some s3File =>
    if item.id = "" ∨ item.type ≠ ITEM_TYPE then
      { calls := [], error := none, item := item }
    else
      let params : CopyObjectRequest :=
        { CopySource := bucket ++ "/" ++ s3File.key
          Bucket := bucket
          Key := newKey
          Metadata := [("member", actorId), ("item", item.id)]
          MetadataDirective := "REPLACE"
          ContentDisposition := "attachment; filename=\"" ++ s3File.name ++ "\""
          ContentType := s3File.contenttype
          CacheControl := "no-cache" }
      match copyOutcome with
      | .error e => { calls := [.copy params], error := some e, item := item }
      | .ok _ =>
        { calls := [.copy params], error := none,
          item := { item with s3File := some { s3File with key := newKey } } }

/-- Result of a whole item-copy operation: the store calls issued, and either
the persisted new item or the error that aborted the copy. -/
structure CopyOperationResult where
  calls : List StoreCall
  persisted : Option Item
  error : Option Err
deriving Repr, DecidableEq

/-- Modelled from the spec: the external task runner (not under src/) runs
the pre-copy hook before persisting the copied record and aborts the whole
copy operation, persisting nothing, when the hook throws; on hook success it
persists the in-flight item the hook left behind. -/
def copyOperation (bucket : String) (item : Item) (actorId : String)
    (newKey : String) (copyOutcome : Except Err Unit) : CopyOperationResult :=
  let r := copyPreHook bucket item actorId newKey copyOutcome
  match r.error with
  | some e => { calls := r.calls, persisted := none, error := some e }
  | none => { calls := r.calls, persisted := some r.item, error := none }

/-- The error shape of src/utils/errors.ts (`GraaspS3FileItemError`):
`name` mirrors `code`, `origin` is fixed by the constructor. -/
structure GraaspErrorShape where
  name : String
  code : String
  statusCode : Nat
  message : String
  data : Option String
  origin : String
deriving Repr, DecidableEq

/-- `NotS3FileItem` from src/utils/errors.ts: code GS3FIERR001, status 400,
constructed with the offending item id as `data`. -/
def NotS3FileItem (data : Option String) : GraaspErrorShape :=
  { name := "GS3FIERR001"
    code := "GS3FIERR001"
    statusCode := 400
    message := "Item is not a \"s3-file-item\""
    data := data
    origin := "graasp-s3-file-item" }

/-- An error thrown by the GET /:id/s3-metadata handler: either the domain
error `NotS3FileItem` or a propagated remote head-object failure. -/
inductive MetaError where
  | domainError (e : GraaspErrorShape)
  | storeError (e : Err)
deriving Repr, DecidableEq

instance {ε α : Type} [DecidableEq ε] [DecidableEq α] : DecidableEq (Except ε α) :=
  fun a b =>
    match a, b with
    | .ok x, .ok y =>
      if h : x = y then .isTrue (by rw [h])
      else .isFalse (fun hh => h (Except.ok.inj hh))
    | .error x, .error y =>
      if h : x = y then .isTrue (by rw [h])
      else .isFalse (fun hh => h (Except.error.inj hh))
    | .ok _, .error _ => .isFalse (fun hh => Except.noConfusion hh)
    | .error _, .ok _ => .isFalse (fun hh => Except.noConfusion hh)

/-- `S3.HeadObjectOutput` fields read by the metadata handler:
`ContentLength` and `ContentType` (both optional in the SDK). -/
structure HeadObjectOutput where
  ContentLength : Option Nat
  ContentType : Option String
deriving Repr, DecidableEq

/-- Result of the GET /:id/s3-metadata handler: store calls issued, log
entries, the update issued to the item record store (if any), and the
response — the returned descriptor or the thrown error. -/
structure MetadataResult where
  calls : List StoreCall
  logs : List LogEntry
  updatedItem : Option Item
  response : Except MetaError S3File
deriving Repr, DecidableEq

/-- The GET /:id/s3-metadata handler (src/index.ts lines 151-182), given the
item fetched by the get task. No `s3File` in `extra`: throw `NotS3FileItem`.
Cache hit (`(size === 0 || size) && contenttype`, so `size` present and
`contenttype` a truthy string): return the descriptor with no remote call.
Otherwise head the object: on rejection log and rethrow without updating;
on success `Object.assign` the returned `ContentLength`/`ContentType` onto
the descriptor, issue one update task, and return the updated descriptor.
`headOutcome` is the outcome of the remote head-object call. -/
def getMetadataHandler (bucket : String) (item : Item)
    (headOutcome : Except Err HeadObjectOutput) : MetadataResult :=
  match item.s3File with
  | none =>
    { calls := [], logs := [], updatedItem := none,
      response := .error (.domainError (NotS3FileItem (some item.id))) }
  | some s3File =>
    if s3File.size.isSome ∧ jsTruthy s3File.contenttype then
      { calls := [], logs := [], updatedItem := none, response := .ok s3File }
    else
      let params : HeadObjectRequest := { Bucket := bucket, Key := s3File.key }
      match headOutcome with
      | .error e =>
        { calls := [.head params],
          logs := [{ error := e,
                     message := "graasp-s3-file-item: failed to get s3 object metadata" }],
          updatedItem := none,
          response := .error (.storeError e) }
      | .ok out =>
        let merged : S3File :=
          { s3File with size := out.ContentLength, contenttype := out.ContentType }
        let updated : Item := { item with s3File := some merged }
        { calls := [.head params], logs := [], updatedItem := some updated,
          response := .ok merged }

/-- The `{item, uploadUrl}` response of POST /s3-upload. -/
structure UploadResponse where
  item : Item
  uploadUrl : String
deriving Repr, DecidableEq

/-- Result of the POST /s3-upload handler: store calls, logs, the item record
persisted by the create task (which runs before the signing call), and the
response or the propagated signing error. -/
structure UploadResult where
  calls : List StoreCall
  logs : List LogEntry
  createdItem : Item
  response : Except Err UploadResponse
deriving Repr, DecidableEq

/-- The POST /s3-upload handler (src/index.ts lines 108-149): truncate the
filename to `ORIGINAL_FILENAME_TRUNCATE_LIMIT` for the item's top-level
`name`, keep the full filename as the descriptor's `name`, mint a key
(passed in as `key`), create the item record (the external create task
assigns it `newItemId`), then request a signed put URL expiring after the
configured `s3Expiration` (default 60). A signing rejection is logged and
rethrown. `s3Expiration` is the plugin option (`none` = not configured);
`signOutcome` is the outcome of the remote `getSignedUrlPromise` call. -/
def uploadHandler (bucket : String) (s3Expiration : Option Nat)
    (memberId : String) (filename : String) (key : String) (newItemId : String)
    (signOutcome : Except Err String) : UploadResult :=
  let expiration := s3Expiration.getD 60
  let name := jsSubstring filename ORIGINAL_FILENAME_TRUNCATE_LIMIT
  let item : Item :=
    { id := newItemId, type := ITEM_TYPE, name := name,
      s3File := some { name := filename, key := key } }
  let params : SignedUrlParams :=
    { Bucket := bucket, Key := key, Expires := expiration,
      Metadata := [("member", memberId), ("item", item.id)] }
  match signOutcome with
  | .error e =>
    { calls := [.signPutUrl params],
      logs := [{ error := e,
                 message := "graasp-s3-file-item: failed to get signed url for upload" }],
      createdItem := item,
      response := .error e }
  | .ok url =>
    { calls := [.signPutUrl params], logs := [], createdItem := item,
      response := .ok { item := item, uploadUrl := url } }

/-! ## Helper lemmas -/

/-- The request object built by the pre-copy hook for a file item. -/
def mkCopyRequest (bucket : String) (s3File : S3File) (itemId actorId newKey : String) :
    CopyObjectRequest :=
  { CopySource := bucket ++ "/" ++ s3File.key
    Bucket := bucket
    Key := newKey
    Metadata := [("member", actorId), ("item", itemId)]
    MetadataDirective := "REPLACE"
    ContentDisposition := "attachment; filename=\"" ++ s3File.name ++ "\""
    ContentType := s3File.contenttype
    CacheControl := "no-cache" }

theorem copyPreHook_ok (bucket : String) (iid inm actorId newKey : String)
    (s3File : S3File) (hid : iid ≠ "") :
    copyPreHook bucket ⟨iid, ITEM_TYPE, inm, some s3File⟩ actorId newKey (.ok ()) =
      { calls := [.copy (mkCopyRequest bucket s3File iid actorId newKey)],
        error := none,
        item := ⟨iid, ITEM_TYPE, inm, some { s3File with key := newKey }⟩ } := by
  simp [copyPreHook, mkCopyRequest, hid]

theorem copyPreHook_error (bucket : String) (iid inm actorId newKey : String)
    (s3File : S3File) (hid : iid ≠ "") (e : Err) :
    copyPreHook bucket ⟨iid, ITEM_TYPE, inm, some s3File⟩ actorId newKey (.error e) =
      { calls := [.copy (mkCopyRequest bucket s3File iid actorId newKey)],
        error := some e,
        item := ⟨iid, ITEM_TYPE, inm, some s3File⟩ } := by
  simp [copyPreHook, mkCopyRequest, hid]

theorem copyOperation_ok (bucket : String) (iid inm actorId newKey : String)
    (s3File : S3File) (hid : iid ≠ "") :
    copyOperation bucket ⟨iid, ITEM_TYPE, inm, some s3File⟩ actorId newKey (.ok ()) =
      { calls := [.copy (mkCopyRequest bucket s3File iid actorId newKey)],
        persisted := some ⟨iid, ITEM_TYPE, inm, some { s3File with key := newKey }⟩,
        error := none } := by
  simp [copyOperation, copyPreHook_ok bucket iid inm actorId newKey s3File hid]

theorem copyOperation_error (bucket : String) (iid inm actorId newKey : String)
    (s3File : S3File) (hid : iid ≠ "") (e : Err) :
    copyOperation bucket ⟨iid, ITEM_TYPE, inm, some s3File⟩ actorId newKey (.error e) =
      { calls := [.copy (mkCopyRequest bucket s3File iid actorId newKey)],
        persisted := none,
        error := some e } := by
  simp [copyOperation, copyPreHook_error bucket iid inm actorId newKey s3File hid e]

/-! ## Claims -/

/-- C1: for every copy of a file item, the pre-copy hook issues exactly one
copy-object call from the item's current key to the freshly minted key; on
success the persisted copy's descriptor carries the new key, and on failure
the error propagates, the copy operation fails, nothing is persisted, and the
in-flight descriptor (its key in particular) is unchanged. -/
theorem copy_hook_repoints_or_fails_whole_copy
    (bucket : String) (item : Item) (actorId newKey : String) (s3File : S3File)
    (hfile : item.s3File = some s3File) (hid : item.id ≠ "")
    (htype : item.type = ITEM_TYPE) (copyOutcome : Except Err Unit) :
    (∃ req : CopyObjectRequest,
      (copyOperation bucket item actorId newKey copyOutcome).calls = [.copy req] ∧
      req.CopySource = bucket ++ "/" ++ s3File.key ∧ req.Key = newKey) ∧
    (copyOutcome = .ok () →
      (copyOperation bucket item actorId newKey copyOutcome).error = none ∧
      (copyOperation bucket item actorId newKey copyOutcome).persisted =
        some { item with s3File := some { s3File with key := newKey } }) ∧
    (∀ e, copyOutcome = .error e →
      (copyOperation bucket item actorId newKey copyOutcome).error = some e ∧
      (copyOperation bucket item actorId newKey copyOutcome).persisted = none ∧
      (copyPreHook bucket item actorId newKey copyOutcome).item = item) := by
  rcases item with ⟨iid, ity, inm, isf⟩
  obtain rfl : isf = some s3File := hfile
  obtain rfl : ity = ITEM_TYPE := htype
  replace hid : iid ≠ "" := hid
  cases copyOutcome with
  | ok u =>
    cases u
    rw [copyOperation_ok bucket iid inm actorId newKey s3File hid]
    exact ⟨⟨mkCopyRequest bucket s3File iid actorId newKey, rfl, rfl, rfl⟩,
      fun _ => ⟨rfl, rfl⟩, fun e h => Except.noConfusion h⟩
  | error e =>
    rw [copyOperation_error bucket iid inm actorId newKey s3File hid e,
        copyPreHook_error bucket iid inm actorId newKey s3File hid e]
    refine ⟨⟨mkCopyRequest bucket s3File iid actorId newKey, rfl, rfl, rfl⟩,
      fun h => Except.noConfusion h, fun e' h => ?_⟩
    obtain rfl : e = e' := Except.error.inj h
    exact ⟨rfl, rfl, rfl⟩

/-- C1 witness: concrete run of the copy operation on a file item, both for a
successful and for a failing copy-object call. -/
theorem copy_hook_repoints_or_fails_whole_copy_witness :
    (∃ req : CopyObjectRequest,
      (copyOperation "bkt" ⟨"i1", "s3File", "doc", some ⟨"doc.pdf", "k0", none, none⟩⟩
        "m1" "nk" (.ok ())).calls = [.copy req] ∧
      req.CopySource = "bkt" ++ "/" ++ "k0" ∧ req.Key = "nk") ∧
    ((copyOperation "bkt" ⟨"i1", "s3File", "doc", some ⟨"doc.pdf", "k0", none, none⟩⟩
        "m1" "nk" (.ok ())).persisted =
      some ⟨"i1", "s3File", "doc", some ⟨"doc.pdf", "nk", none, none⟩⟩) := by
  have h := copy_hook_repoints_or_fails_whole_copy "bkt"
    ⟨"i1", "s3File", "doc", some ⟨"doc.pdf", "k0", none, none⟩⟩ "m1" "nk"
    ⟨"doc.pdf", "k0", none, none⟩ rfl (by decide) rfl (.ok ())
  exact ⟨h.1, (h.2.1 rfl).2⟩

/-- C2: for every deletion of a file item, the post-delete hook issues one
delete-object call for the descriptor's key; a failure of that call is
swallowed into a single log entry whose message is tagged with the key and is
never propagated (the hook's result type has no error channel), and the calls
issued do not depend on the delete-object outcome. -/
theorem delete_hook_best_effort
    (bucket : String) (item : Item) (s3File : S3File)
    (hfile : item.s3File = some s3File) (htype : item.type = ITEM_TYPE)
    (outcome : Except Err Unit) :
    (deletePostHook bucket item outcome).calls =
      [.delete { Bucket := bucket, Key := s3File.key }] ∧
    (deletePostHook bucket item (.ok ())).logs = [] ∧
    (∀ e, (deletePostHook bucket item (.error e)).logs =
      [{ error := e,
         message := "graasp-s3-file-item: failed to delete s3 object \x27"
           ++ s3File.key ++ "\x27" }]) := by
  rcases item with ⟨iid, ity, inm, isf⟩
  obtain rfl : isf = some s3File := hfile
  obtain rfl : ity = ITEM_TYPE := htype
  refine ⟨?_, rfl, fun e => rfl⟩
  cases outcome with
  | ok u => cases u; rfl
  | error e => rfl

/-- C2 witness: concrete run of the post-delete hook on a file item whose
delete-object call fails. -/
theorem delete_hook_best_effort_witness :
    (deletePostHook "bkt" ⟨"i1", "s3File", "doc", some ⟨"doc.pdf", "k0", none, none⟩⟩
      (.error ⟨"boom"⟩)).calls = [.delete { Bucket := "bkt", Key := "k0" }] ∧
    (deletePostHook "bkt" ⟨"i1", "s3File", "doc", some ⟨"doc.pdf", "k0", none, none⟩⟩
      (.error ⟨"boom"⟩)).logs =
      [{ error := ⟨"boom"⟩,
         message := "graasp-s3-file-item: failed to delete s3 object \x27"
           ++ "k0" ++ "\x27" }] := by
  have h := delete_hook_best_effort "bkt"
    ⟨"i1", "s3File", "doc", some ⟨"doc.pdf", "k0", none, none⟩⟩
    ⟨"doc.pdf", "k0", none, none⟩ rfl rfl (.error ⟨"boom"⟩)
  exact ⟨h.1, h.2.2 ⟨"boom"⟩⟩

/-- C7: the pre-copy hook's copy-object request replaces the object metadata
wholesale (MetadataDirective REPLACE) with exactly the pair
member ↦ copying actor's id, item ↦ source item's id, sets a
content-disposition of attachment naming the original display name, and
resupplies the source descriptor's content type. -/
theorem copy_hook_request_contents
    (bucket : String) (item : Item) (actorId newKey : String) (s3File : S3File)
    (hfile : item.s3File = some s3File) (hid : item.id ≠ "")
    (htype : item.type = ITEM_TYPE) (copyOutcome : Except Err Unit) :
    ∃ req : CopyObjectRequest,
      (copyPreHook bucket item actorId newKey copyOutcome).calls = [.copy req] ∧
      req.Metadata = [("member", actorId), ("item", item.id)] ∧
      req.MetadataDirective = "REPLACE" ∧
      req.ContentDisposition = "attachment; filename=\"" ++ s3File.name ++ "\"" ∧
      req.ContentType = s3File.contenttype := by
  rcases item with ⟨iid, ity, inm, isf⟩
  obtain rfl : isf = some s3File := hfile
  obtain rfl : ity = ITEM_TYPE := htype
  replace hid : iid ≠ "" := hid
  refine ⟨mkCopyRequest bucket s3File iid actorId newKey, ?_, rfl, rfl, rfl, rfl⟩
  cases copyOutcome with
  | ok u =>
    cases u
    rw [copyPreHook_ok bucket iid inm actorId newKey s3File hid]
  | error e =>
    rw [copyPreHook_error bucket iid inm actorId newKey s3File hid e]

/-- C7 witness: concrete copy-object request for a file item. -/
theorem copy_hook_request_contents_witness :
    ∃ req : CopyObjectRequest,
      (copyPreHook "bkt" ⟨"i1", "s3File", "doc", some ⟨"doc.pdf", "k0", none, some "application/pdf"⟩⟩
        "m1" "nk" (.ok ())).calls = [.copy req] ∧
      req.Metadata = [("member", "m1"), ("item", "i1")] ∧
      req.MetadataDirective = "REPLACE" ∧
      req.ContentDisposition = "attachment; filename=\"" ++ "doc.pdf" ++ "\"" ∧
      req.ContentType = some "application/pdf" :=
  copy_hook_request_contents "bkt"
    ⟨"i1", "s3File", "doc", some ⟨"doc.pdf", "k0", none, some "application/pdf"⟩⟩
    "m1" "nk" ⟨"doc.pdf", "k0", none, some "application/pdf"⟩ rfl (by decide) rfl (.ok ())

/-- C9: for every item whose type tag is not the file-item type, or whose
extra payload lacks the s3File descriptor, both the pre-copy and the
post-delete hook perform zero store calls and leave the item unchanged. -/
theorem hooks_noop_on_non_file_items
    (bucket : String) (item : Item) (actorId newKey : String)
    (copyOutcome deleteOutcome : Except Err Unit)
    (h : item.type ≠ ITEM_TYPE ∨ item.s3File = none) :
    deletePostHook bucket item deleteOutcome = { calls := [], logs := [] } ∧
    copyPreHook bucket item actorId newKey copyOutcome =
      { calls := [], error := none, item := item } := by
  rcases item with ⟨iid, ity, inm, isf⟩
  rcases h with h | h
  · replace h : ity ≠ ITEM_TYPE := h
    cases isf with
    | none => exact ⟨rfl, rfl⟩
    | some f =>
      constructor
      · simp [deletePostHook, h]
      · simp [copyPreHook, h]
  · obtain rfl : isf = none := h
    exact ⟨rfl, rfl⟩

/-- C9 witness: concrete non-file item carrying a similarly-shaped descriptor;
both hooks are no-ops. -/
theorem hooks_noop_on_non_file_items_witness :
    deletePostHook "bkt" ⟨"i1", "folder", "doc", some ⟨"doc.pdf", "k0", none, none⟩⟩
      (.ok ()) = { calls := [], logs := [] } ∧
    copyPreHook "bkt" ⟨"i1", "folder", "doc", some ⟨"doc.pdf", "k0", none, none⟩⟩
      "m1" "nk" (.ok ()) =
      { calls := [], error := none,
        item := ⟨"i1", "folder", "doc", some ⟨"doc.pdf", "k0", none, none⟩⟩ } :=
  hooks_noop_on_non_file_items "bkt"
    ⟨"i1", "folder", "doc", some ⟨"doc.pdf", "k0", none, none⟩⟩
    "m1" "nk" (.ok ()) (.ok ()) (.inl (by decide))

theorem getMetadataHandler_cache_hit (bucket iid ity inm : String) (s3File : S3File)
    (hsz : s3File.size.isSome) (hct : jsTruthy s3File.contenttype)
    (ho : Except Err HeadObjectOutput) :
    getMetadataHandler bucket ⟨iid, ity, inm, some s3File⟩ ho =
      { calls := [], logs := [], updatedItem := none, response := .ok s3File } := by
  simp [getMetadataHandler, hsz, hct]

theorem getMetadataHandler_head_error (bucket iid ity inm : String) (s3File : S3File)
    (hmiss : ¬(s3File.size.isSome ∧ jsTruthy s3File.contenttype)) (e : Err) :
    getMetadataHandler bucket ⟨iid, ity, inm, some s3File⟩ (.error e) =
      { calls := [.head { Bucket := bucket, Key := s3File.key }],
        logs := [{ error := e,
                   message := "graasp-s3-file-item: failed to get s3 object metadata" }],
        updatedItem := none, response := .error (.storeError e) } := by
  simp only [getMetadataHandler, if_neg hmiss]

theorem getMetadataHandler_head_ok (bucket iid ity inm : String) (s3File : S3File)
    (hmiss : ¬(s3File.size.isSome ∧ jsTruthy s3File.contenttype))
    (out : HeadObjectOutput) :
    getMetadataHandler bucket ⟨iid, ity, inm, some s3File⟩ (.ok out) =
      { calls := [.head { Bucket := bucket, Key := s3File.key }], logs := [],
        updatedItem := some ⟨iid, ity, inm,
          some { s3File with size := out.ContentLength, contenttype := out.ContentType }⟩,
        response := .ok { s3File with size := out.ContentLength,
                                      contenttype := out.ContentType } } := by
  simp only [getMetadataHandler, if_neg hmiss]

/-- C3 counterexample: a descriptor with `size` and `contenttype` both present
(`contenttype` the empty string) is not treated as a cache hit — the handler
still issues a head call, where the claim requires zero object-store calls. -/
theorem metadata_cache_claim_counterexample :
    (({ name := "f.bin", key := "k", size := some 1024,
        contenttype := some "" } : S3File).size.isSome ∧
     ({ name := "f.bin", key := "k", size := some 1024,
        contenttype := some "" } : S3File).contenttype.isSome) ∧
    (getMetadataHandler "bkt"
      ⟨"i1", "s3File", "f",
        some { name := "f.bin", key := "k", size := some 1024, contenttype := some "" }⟩
      (.ok { ContentLength := some 1024, ContentType := some "application/pdf" })).calls =
      [.head { Bucket := "bkt", Key := "k" }] := by
  constructor
  · exact ⟨rfl, rfl⟩
  · rfl

/-- C3 (amended): a metadata read on a descriptor with `size` present and
`contenttype` present and non-empty is a cache hit — it returns the descriptor
unchanged with zero store calls and zero record updates; and a first read that
fills the gap from a head result carrying a size and a non-empty content type
issues exactly one head call and one record update, after which every repeated
read performs zero store calls, issues no update, and returns the identical
response. -/
theorem metadata_cache_hit_and_idempotent_fill
    (bucket : String) (item : Item) (s3File : S3File)
    (hfile : item.s3File = some s3File) :
    (∀ ho : Except Err HeadObjectOutput,
      s3File.size.isSome → jsTruthy s3File.contenttype →
      getMetadataHandler bucket item ho =
        { calls := [], logs := [], updatedItem := none, response := .ok s3File }) ∧
    (∀ out : HeadObjectOutput,
      ¬(s3File.size.isSome ∧ jsTruthy s3File.contenttype) →
      out.ContentLength.isSome → jsTruthy out.ContentType →
      (getMetadataHandler bucket item (.ok out)).calls =
        [.head { Bucket := bucket, Key := s3File.key }] ∧
      (∃ updated : Item,
        (getMetadataHandler bucket item (.ok out)).updatedItem = some updated ∧
        ∀ ho2 : Except Err HeadObjectOutput,
          getMetadataHandler bucket updated ho2 =
            { calls := [], logs := [], updatedItem := none,
              response := (getMetadataHandler bucket item (.ok out)).response })) := by
  rcases item with ⟨iid, ity, inm, isf⟩
  obtain rfl : isf = some s3File := hfile
  constructor
  · intro ho hsz hct
    exact getMetadataHandler_cache_hit bucket iid ity inm s3File hsz hct ho
  · intro out hmiss hsz hct
    rw [getMetadataHandler_head_ok bucket iid ity inm s3File hmiss out]
    refine ⟨rfl,
      ⟨iid, ity, inm,
        some { s3File with size := out.ContentLength, contenttype := out.ContentType }⟩,
      rfl, fun ho2 => ?_⟩
    exact getMetadataHandler_cache_hit bucket iid ity inm
      { s3File with size := out.ContentLength, contenttype := out.ContentType }
      hsz hct ho2

/-- C3 witness: concrete cache hit (size 1024, content type application/pdf)
and concrete first-fill followed by an idempotent second read. -/
theorem metadata_cache_hit_and_idempotent_fill_witness :
    (getMetadataHandler "bkt"
      ⟨"i1", "s3File", "f",
        some { name := "f.bin", key := "k", size := some 1024,
               contenttype := some "application/pdf" }⟩
      (.ok { ContentLength := some 7, ContentType := some "x" })) =
      { calls := [], logs := [], updatedItem := none,
        response := .ok { name := "f.bin", key := "k", size := some 1024,
                          contenttype := some "application/pdf" } } ∧
    (getMetadataHandler "bkt"
      ⟨"i2", "s3File", "f",
        some { name := "f.bin", key := "k2", size := none, contenttype := none }⟩
      (.ok { ContentLength := some 1024, ContentType := some "application/pdf" })).calls =
      [.head { Bucket := "bkt", Key := "k2" }] := by
  have h := metadata_cache_hit_and_idempotent_fill "bkt"
    ⟨"i1", "s3File", "f",
      some { name := "f.bin", key := "k", size := some 1024,
             contenttype := some "application/pdf" }⟩
    { name := "f.bin", key := "k", size := some 1024,
      contenttype := some "application/pdf" } rfl
  have h2 := metadata_cache_hit_and_idempotent_fill "bkt"
    ⟨"i2", "s3File", "f",
      some { name := "f.bin", key := "k2", size := none, contenttype := none }⟩
    { name := "f.bin", key := "k2", size := none, contenttype := none } rfl
  exact ⟨h.1 (.ok { ContentLength := some 7, ContentType := some "x" }) rfl (by decide),
    (h2.2 { ContentLength := some 1024, ContentType := some "application/pdf" }
      (by decide) rfl (by decide)).1⟩

/-- C4: a metadata read that triggers the head call (the cache-hit guard
fails) and whose head call fails propagates the head error and issues no
record update, leaving the stored descriptor untouched. -/
theorem metadata_head_failure_propagates_without_update
    (bucket : String) (item : Item) (s3File : S3File) (e : Err)
    (hfile : item.s3File = some s3File)
    (hmiss : ¬(s3File.size.isSome ∧ jsTruthy s3File.contenttype)) :
    (getMetadataHandler bucket item (.error e)).calls =
      [.head { Bucket := bucket, Key := s3File.key }] ∧
    (getMetadataHandler bucket item (.error e)).response = .error (.storeError e) ∧
    (getMetadataHandler bucket item (.error e)).updatedItem = none := by
  rcases item with ⟨iid, ity, inm, isf⟩
  obtain rfl : isf = some s3File := hfile
  rw [getMetadataHandler_head_error bucket iid ity inm s3File hmiss e]
  exact ⟨rfl, rfl, rfl⟩

/-- C4 witness: concrete failing head call on a descriptor with no cached
metadata. -/
theorem metadata_head_failure_propagates_without_update_witness :
    (getMetadataHandler "bkt"
      ⟨"i1", "s3File", "f",
        some { name := "f.bin", key := "k", size := none, contenttype := none }⟩
      (.error ⟨"boom"⟩)).response = .error (.storeError ⟨"boom"⟩) ∧
    (getMetadataHandler "bkt"
      ⟨"i1", "s3File", "f",
        some { name := "f.bin", key := "k", size := none, contenttype := none }⟩
      (.error ⟨"boom"⟩)).updatedItem = none := by
  have h := metadata_head_failure_propagates_without_update "bkt"
    ⟨"i1", "s3File", "f",
      some { name := "f.bin", key := "k", size := none, contenttype := none }⟩
    { name := "f.bin", key := "k", size := none, contenttype := none }
    ⟨"boom"⟩ rfl (by decide)
  exact ⟨h.2.1, h.2.2⟩

/-- C5: a metadata read on an item whose extra payload lacks the s3File
descriptor fails with the NotS3FileItem domain error (status code 400) and
issues zero object-store calls and zero record updates. -/
theorem metadata_not_a_file_item
    (bucket : String) (item : Item) (ho : Except Err HeadObjectOutput)
    (hfile : item.s3File = none) :
    (getMetadataHandler bucket item ho).calls = [] ∧
    (getMetadataHandler bucket item ho).updatedItem = none ∧
    (getMetadataHandler bucket item ho).response =
      .error (.domainError (NotS3FileItem (some item.id))) ∧
    (NotS3FileItem (some item.id)).statusCode = 400 := by
  rcases item with ⟨iid, ity, inm, isf⟩
  obtain rfl : isf = none := hfile
  exact ⟨rfl, rfl, rfl, rfl⟩

/-- C5 witness: concrete item with no s3File descriptor. -/
theorem metadata_not_a_file_item_witness :
    (getMetadataHandler "bkt" ⟨"i1", "folder", "f", none⟩
      (.ok { ContentLength := some 3, ContentType := some "x" })).calls = [] ∧
    (getMetadataHandler "bkt" ⟨"i1", "folder", "f", none⟩
      (.ok { ContentLength := some 3, ContentType := some "x" })).response =
      .error (.domainError (NotS3FileItem (some "i1"))) := by
  have h := metadata_not_a_file_item "bkt" ⟨"i1", "folder", "f", none⟩
    (.ok { ContentLength := some 3, ContentType := some "x" }) rfl
  exact ⟨h.1, h.2.2.1⟩

theorem jsSubstring_eq_self_iff (s : String) (n : Nat) :
    jsSubstring s n = s ↔ s.length ≤ n := by
  rcases s with ⟨data⟩
  show String.mk (data.take n) = String.mk data ↔ data.length ≤ n
  constructor
  · intro h
    have hd : data.take n = data := congrArg String.data h
    rw [List.take_eq_self_iff] at hd
    exact hd
  · intro h
    rw [List.take_of_length_le h]

/-- C8: POST /s3-upload with a filename returns the created item together
with an upload URL; the item's descriptor has the given filename as its
display name, the freshly minted key, and neither size nor content type yet;
the signing request's expiry is the configured s3Expiration, and 60 when the
option is absent. -/
theorem upload_roundtrip
    (bucket : String) (s3Expiration : Option Nat)
    (memberId filename key newItemId url : String) :
    ∃ (item : Item) (f : S3File),
      (uploadHandler bucket s3Expiration memberId filename key newItemId
        (.ok url)).response = .ok { item := item, uploadUrl := url } ∧
      item.s3File = some f ∧
      f.name = filename ∧ f.key = key ∧ f.size = none ∧ f.contenttype = none ∧
      (uploadHandler bucket s3Expiration memberId filename key newItemId
        (.ok url)).calls =
        [.signPutUrl { Bucket := bucket, Key := key, Expires := s3Expiration.getD 60,
                       Metadata := [("member", memberId), ("item", newItemId)] }] ∧
      (uploadHandler bucket none memberId filename key newItemId (.ok url)).calls =
        [.signPutUrl { Bucket := bucket, Key := key, Expires := 60,
                       Metadata := [("member", memberId), ("item", newItemId)] }] :=
  ⟨{ id := newItemId, type := ITEM_TYPE,
     name := jsSubstring filename ORIGINAL_FILENAME_TRUNCATE_LIMIT,
     s3File := some { name := filename, key := key } },
   { name := filename, key := key },
   rfl, rfl, rfl, rfl, rfl, rfl, rfl, rfl⟩

/-- C10: the created item record's top-level name is the filename truncated
to its first 100 characters while the descriptor keeps the full filename as
its display name; the two differ exactly when the filename is longer than
100 characters. -/
theorem upload_truncates_record_name_keeps_full_display_name
    (bucket : String) (s3Expiration : Option Nat)
    (memberId filename key newItemId : String) (signOutcome : Except Err String) :
    ∃ f : S3File,
      (uploadHandler bucket s3Expiration memberId filename key newItemId
        signOutcome).createdItem.s3File = some f ∧
      (uploadHandler bucket s3Expiration memberId filename key newItemId
        signOutcome).createdItem.name =
        jsSubstring filename ORIGINAL_FILENAME_TRUNCATE_LIMIT ∧
      f.name = filename ∧
      ((uploadHandler bucket s3Expiration memberId filename key newItemId
          signOutcome).createdItem.name ≠ f.name ↔
        ORIGINAL_FILENAME_TRUNCATE_LIMIT < filename.length) := by
  refine ⟨{ name := filename, key := key }, ?_, ?_, rfl, ?_⟩
  · cases signOutcome with
    | ok url => rfl
    | error e => rfl
  · cases signOutcome with
    | ok url => rfl
    | error e => rfl
  · have hname : (uploadHandler bucket s3Expiration memberId filename key newItemId
        signOutcome).createdItem.name =
        jsSubstring filename ORIGINAL_FILENAME_TRUNCATE_LIMIT := by
      cases signOutcome with
      | ok url => rfl
      | error e => rfl
    rw [hname]
    constructor
    · intro hne
      by_contra hle
      exact hne ((jsSubstring_eq_self_iff filename
        ORIGINAL_FILENAME_TRUNCATE_LIMIT).mpr (Nat.le_of_not_lt hle))
    · intro hlt hEq
      have := (jsSubstring_eq_self_iff filename ORIGINAL_FILENAME_TRUNCATE_LIMIT).mp hEq
      omega

/-- Pairing invariant of the descriptor's lazily filled fields. -/
def sizeContenttypePaired (f : S3File) : Prop := f.size.isSome ↔ f.contenttype.isSome

/-- C6: size and contenttype are populated together — upload creates the
descriptor with both absent, the pre-copy hook preserves both fields exactly,
and the metadata fill sets both at once from the single head result (so they
are both present whenever the head result carries both fields, as the
object-store boundary contract guarantees). -/
theorem size_contenttype_filled_together :
    (∀ (bucket : String) (s3Expiration : Option Nat)
       (memberId filename key newItemId : String) (signOutcome : Except Err String)
       (f : S3File),
      (uploadHandler bucket s3Expiration memberId filename key newItemId
        signOutcome).createdItem.s3File = some f →
      f.size = none ∧ f.contenttype = none) ∧
    (∀ (bucket : String) (item : Item) (actorId newKey : String)
       (copyOutcome : Except Err Unit) (f f' : S3File),
      item.s3File = some f →
      (copyPreHook bucket item actorId newKey copyOutcome).item.s3File = some f' →
      f'.size = f.size ∧ f'.contenttype = f.contenttype) ∧
    (∀ (bucket : String) (item : Item) (headOut : HeadObjectOutput)
       (updated : Item) (f' : S3File),
      (getMetadataHandler bucket item (.ok headOut)).updatedItem = some updated →
      updated.s3File = some f' →
      f'.size = headOut.ContentLength ∧ f'.contenttype = headOut.ContentType ∧
      (headOut.ContentLength.isSome → headOut.ContentType.isSome →
        sizeContenttypePaired f')) := by
  refine ⟨?_, ?_, ?_⟩
  · intro bucket s3Expiration memberId filename key newItemId signOutcome f hf
    have : (uploadHandler bucket s3Expiration memberId filename key newItemId
        signOutcome).createdItem.s3File = some { name := filename, key := key } := by
      cases signOutcome with
      | ok url => rfl
      | error e => rfl
    rw [this] at hf
    obtain rfl : ({ name := filename, key := key } : S3File) = f := Option.some.inj hf
    exact ⟨rfl, rfl⟩
  · intro bucket item actorId newKey copyOutcome f f' hf hf'
    rcases item with ⟨iid, ity, inm, isf⟩
    obtain rfl : isf = some f := hf
    by_cases hguard : iid = "" ∨ ity ≠ ITEM_TYPE
    · rw [show copyPreHook bucket ⟨iid, ity, inm, some f⟩ actorId newKey copyOutcome =
          { calls := [], error := none, item := ⟨iid, ity, inm, some f⟩ } by
        simp [copyPreHook, hguard]] at hf'
      obtain rfl : f = f' := Option.some.inj hf'
      exact ⟨rfl, rfl⟩
    · push_neg at hguard
      obtain ⟨hid, htype⟩ := hguard
      obtain rfl : ity = ITEM_TYPE := htype
      cases copyOutcome with
      | ok u =>
        cases u
        rw [copyPreHook_ok bucket iid inm actorId newKey f hid] at hf'
        obtain rfl : ({ f with key := newKey } : S3File) = f' := Option.some.inj hf'
        exact ⟨rfl, rfl⟩
      | error e =>
        rw [copyPreHook_error bucket iid inm actorId newKey f hid e] at hf'
        obtain rfl : f = f' := Option.some.inj hf'
        exact ⟨rfl, rfl⟩
  · intro bucket item headOut updated f' hupd hf'
    rcases item with ⟨iid, ity, inm, isf⟩
    cases isf with
    | none => exact absurd hupd (by simp [getMetadataHandler])
    | some s3File =>
      by_cases hhit : s3File.size.isSome ∧ jsTruthy s3File.contenttype
      · rw [getMetadataHandler_cache_hit bucket iid ity inm s3File hhit.1 hhit.2
          (.ok headOut)] at hupd
        exact absurd hupd (by simp)
      · rw [getMetadataHandler_head_ok bucket iid ity inm s3File hhit headOut] at hupd
        obtain rfl : (⟨iid, ity, inm,
            some { s3File with size := headOut.ContentLength,
                               contenttype := headOut.ContentType }⟩ : Item) = updated :=
          Option.some.inj hupd
        obtain rfl :
            ({ s3File with size := headOut.ContentLength,
                           contenttype := headOut.ContentType } : S3File) = f' :=
          Option.some.inj hf'
        refine ⟨rfl, rfl, fun h1 h2 => ?_⟩
        unfold sizeContenttypePaired
        constructor
        · intro _; exact h2
        · intro _; exact h1

/-- C6 witness: a concrete metadata fill whose head result carries both
fields yields a descriptor with size and contenttype both present. -/
theorem size_contenttype_filled_together_witness :
    ({ name := "f.bin", key := "k", size := some 1024,
       contenttype := some "application/pdf" } : S3File).size = some 1024 ∧
    sizeContenttypePaired
      { name := "f.bin", key := "k", size := some 1024,
        contenttype := some "application/pdf" } := by
  have h := size_contenttype_filled_together
  have hfill := h.2.2 "bkt"
    ⟨"i1", "s3File", "f", some { name := "f.bin", key := "k", size := none,
                                 contenttype := none }⟩
    { ContentLength := some 1024, ContentType := some "application/pdf" }
    ⟨"i1", "s3File", "f", some { name := "f.bin", key := "k", size := some 1024,
                                 contenttype := some "application/pdf" }⟩
    { name := "f.bin", key := "k", size := some 1024,
      contenttype := some "application/pdf" }
    rfl rfl
  exact ⟨hfill.1, hfill.2.2 rfl rfl⟩

end GraaspS3FileItem
